import Mathlib

/-!
Verification of the vLLM completion adapter
(`litellm/llms/vllm/completion/handler.py`).

The adapter is integration glue between the litellm framework and the vLLM
inference engine.  We shallowly embed the adapter's own logic:

* Python dicts become association lists (`Dict`) over a small value type
  (`Val`) that distinguishes Python's `True` from `1` (needed for the
  `is True` identity check on the streaming flag);
* the process-wide global `llm` becomes explicit state of type
  `Option Engine` threaded through `validate_environment`;
* exceptions become `Except`: adapter-raised `VLLMError`s are one
  constructor, uncaught Python exceptions (e.g. `IndexError` from `[0]`
  indexing) are another;
* logging side effects (`logging_obj.pre_call` / `post_call`) become an
  explicit list of emitted `LogEvent`s in the result;
* external collaborators (the `vllm` import, the `LLM` constructor, the
  engine's `generate`, and the prompt builders from
  `litellm_core_utils.prompt_templates.factory`) are parameters of the
  embedded functions.
-/

namespace Vllm

/-- A Python value as it appears in the adapter's option dictionaries.
`vBool true` is the Python object `True`; `vInt 1` is the integer `1`;
the two are distinct, mirroring Python's `is` identity check.  Python
floats that occur here (only the default `0.9`) carry no arithmetic in the
adapter, so they are represented exactly as rationals. -/
inductive Val where
  | vNone : Val
  | vBool : Bool → Val
  | vInt : Int → Val
  | vStr : String → Val
  | vFloat : Rat → Val
deriving DecidableEq, Repr

/-- A Python dict with string keys, as an association list in insertion
order.  Caller-supplied dicts have unique keys; the operations below give
first-occurrence semantics, which agrees with Python on such inputs. -/
abbrev Dict := List (String × Val)

/-- Python `d[key]` / `d.get(key)`: first binding of `key` in `d`. -/
def Dict.lookup : Dict → String → Option Val
  | [], _ => none
  | (k, v) :: d, key => if k = key then some v else Dict.lookup d key

/-- Python `key in d`. -/
def Dict.containsKey (d : Dict) (k : String) : Bool :=
  (d.lookup k).isSome

/-- Python `{**a, **b}`: the keys of `a` in order, with `b`'s value when
`b` also binds the key, followed by the keys of `b` that `a` lacks. -/
def Dict.merge (a b : Dict) : Dict :=
  (a.map fun kv => (kv.1, (Dict.lookup b kv.1).getD kv.2)) ++
    b.filter fun kv => !a.containsKey kv.1

/-- The `default_params` whitelist of engine-construction options, with
their default values, exactly as written in `validate_environment`. -/
def default_params : Dict :=
  [("tokenizer", Val.vNone),
   ("tokenizer_mode", Val.vStr "auto"),
   ("skip_tokenizer_init", Val.vBool false),
   ("trust_remote_code", Val.vBool false),
   ("dtype", Val.vStr "auto"),
   ("quantization", Val.vNone),
   ("gpu_memory_utilization", Val.vFloat (9 / 10)),
   ("load_format", Val.vStr "auto")]

/-- The engine-construction options computed by `validate_environment`:
`params = {**default_params, **{k: v for k, v in optional_params.items() if k in default_params}}`. -/
def construction_params (optional_params : Dict) : Dict :=
  Dict.merge default_params
    (optional_params.filter fun kv => default_params.containsKey kv.1)

/-- The generation options computed by `validate_environment`:
`optional_params = {k: v for k, v in optional_params.items() if k not in default_params}`. -/
def generation_params (optional_params : Dict) : Dict :=
  optional_params.filter fun kv => !default_params.containsKey kv.1

/-- The adapter's uniform error type.  The Python class also carries a
synthetic httpx request/response pair, which holds no information beyond
the status code and is omitted. -/
structure VLLMError where
  status_code : Int
  message : String
deriving DecidableEq, Repr

/-- Python `str(e)` on a `VLLMError`: the class passes `self.message` to
`Exception.__init__`, so `str` returns the message. -/
def VLLMError.str (e : VLLMError) : String :=
  e.message

/-- The state of a constructed vLLM engine: the model it was built for and
the construction options it received.  The engine's behaviour is external;
only its identity and configuration matter to the adapter. -/
structure Engine where
  model : String
  params : Dict
deriving DecidableEq, Repr

/-- A successful run of the external `LLM(model=model, **params)`
constructor, for instantiating the embedded functions in examples. -/
def LLM_ok (model : String) (params : Dict) : Except String Engine :=
  Except.ok ⟨model, params⟩

/-- Embedding of `validate_environment(model, optional_params)`.

`importVLLM` models the `from vllm import LLM, SamplingParams` statement
(`Except.error msg` when the import raises with message `msg`); `mkLLM`
models the external `LLM` constructor; `st` is the process-wide global
`llm` before the call.  On success the first component of the result is
the value of the global `llm` after the call, which is also the engine
handle returned to the caller; the second is the stripped generation
options.  Any exception inside the `try` block is re-raised as
`VLLMError(status_code=0, message=str(e))`. -/
def validate_environment (importVLLM : Except String Unit)
    (mkLLM : String → Dict → Except String Engine)
    (st : Option Engine) (model : String)
    (optional_params : Option Dict) :
    Except VLLMError (Option Engine × Dict) :=
  match importVLLM with
  | Except.error msg => Except.error ⟨0, msg⟩
  | Except.ok _ =>
    match st with
    | some e => Except.ok (some e, generation_params (optional_params.getD []))
    | none =>
      match mkLLM model (construction_params (optional_params.getD [])) with
      | Except.ok e => Except.ok (some e, generation_params (optional_params.getD []))
      | Except.error msg => Except.error ⟨0, msg⟩

/-- Sanity check: a first call with one whitelist key and one pass-through
key builds the engine with the overridden whitelist value and strips the
pass-through key into the generation options. -/
theorem validate_environment_sample_run :
    validate_environment (Except.ok ()) LLM_ok none "m"
      (some [("stream", Val.vBool true), ("dtype", Val.vStr "fp16")]) =
    Except.ok (some ⟨"m",
      [("tokenizer", Val.vNone),
       ("tokenizer_mode", Val.vStr "auto"),
       ("skip_tokenizer_init", Val.vBool false),
       ("trust_remote_code", Val.vBool false),
       ("dtype", Val.vStr "fp16"),
       ("quantization", Val.vNone),
       ("gpu_memory_utilization", Val.vFloat (9 / 10)),
       ("load_format", Val.vStr "auto")]⟩,
      [("stream", Val.vBool true)]) := by
  rfl

/-- Modelled from the spec: one candidate of an engine raw output — the
generated text and its token-id sequence (`output.outputs[0].text`,
`output.outputs[0].token_ids`); the vLLM output classes are external. -/
structure CompletionOutput where
  text : String
  token_ids : List Nat
deriving DecidableEq, Repr

/-- Modelled from the spec: one engine raw output — the prompt's token-id
sequence and the list of candidate completions
(`output.prompt_token_ids`, `output.outputs`). -/
structure RequestOutput where
  prompt_token_ids : List Nat
  outputs : List CompletionOutput
deriving DecidableEq, Repr

/-- Modelled from the spec: the usage record of a response object
(`litellm.utils.Usage` is outside src/) — prompt-token count,
completion-token count, and their total, stored as given. -/
structure Usage where
  prompt_tokens : Nat
  completion_tokens : Nat
  total_tokens : Nat
deriving DecidableEq, Repr

/-- Modelled from the spec: the message slot of a response choice
(`model_response.choices[0].message.content`). -/
structure RespMessage where
  content : Option String
deriving DecidableEq, Repr

/-- Modelled from the spec: one choice of a response object. -/
structure Choice where
  message : RespMessage
deriving DecidableEq, Repr

/-- Modelled from the spec: the unified response object
(`litellm.utils.ModelResponse` is outside src/) — generated text (in the
first choice), creation timestamp, model identifier, usage record. -/
structure ModelResponse where
  choices : List Choice
  created : Nat
  model : String
  usage : Option Usage
deriving DecidableEq, Repr

/-- Modelled from the spec: `ModelResponse()` constructs a fresh response
object with a single empty choice and no usage. -/
def ModelResponse.new : ModelResponse :=
  ⟨[⟨⟨none⟩⟩], 0, "", none⟩

/-- Python `model_response.choices[0].message.content = t`: `none` when
`choices` is empty (an `IndexError` in Python). -/
def ModelResponse.setContent0 (mr : ModelResponse) (t : String) :
    Option ModelResponse :=
  match mr.choices with
  | [] => none
  | _ :: rest => some { mr with choices := ⟨⟨some t⟩⟩ :: rest }

/-- A logging callback invocation made through `logging_obj`. -/
inductive LogEvent where
  | pre_call : String → LogEvent
  | post_call : String → LogEvent
deriving DecidableEq, Repr

/-- An exception escaping an adapter entry point: either an adapter-raised
`VLLMError`, or an uncaught ordinary Python exception (the `[0]` index
accesses are outside every `try` block). -/
inductive AdapterError where
  | vllm : VLLMError → AdapterError
  | uncaught : String → AdapterError
deriving DecidableEq, Repr

/-- What `completion` returns: the raw engine output sequence as a
single-pass iterator (`iter(outputs)`) in streaming mode, or a populated
response object otherwise. -/
inductive CompletionReturn where
  | stream : List RequestOutput → CompletionReturn
  | response : ModelResponse → CompletionReturn
deriving DecidableEq, Repr

/-- The streaming test
`"stream" in optional_params and optional_params["stream"] is True`:
the key must be present and its value must be the object `True`. -/
def streamRequested (optional_params : Dict) : Bool :=
  optional_params.containsKey "stream" &&
    match optional_params.lookup "stream" with
    | some (Val.vBool true) => true
    | _ => false

/-- The response-population block shared verbatim by `completion`
(lines 116–129) and the loop body of `batch_completions` (lines 194–209):
set the first choice's content from the first candidate's text, then store
the timestamp, the model and the usage computed from the token-id
sequence lengths.  `Except.error (AdapterError.uncaught ...)` models the
`IndexError` of `output.outputs[0]` / `choices[0]` on empty lists. -/
def populateResponse (mr : ModelResponse) (model : String) (now : Nat)
    (output : RequestOutput) : Except AdapterError ModelResponse :=
  match output.outputs.head? with
  | none => Except.error (AdapterError.uncaught "IndexError")
  | some c0 =>
    match mr.setContent0 c0.text with
    | none => Except.error (AdapterError.uncaught "IndexError")
    | some mr1 =>
      let prompt_tokens := output.prompt_token_ids.length
      let completion_tokens := c0.token_ids.length
      Except.ok { mr1 with
        created := now
        model := model
        usage := some ⟨prompt_tokens, completion_tokens,
          prompt_tokens + completion_tokens⟩ }

/-- Embedding of `completion(...)`.

External collaborators are parameters: `generate` is the engine's
`generate(prompt, sampling_params)`; `promptFor` abstracts lines 77–88
(the choice between `custom_prompt` and `prompt_factory`, both outside
src/).  `SamplingParams(**optional_params)` is opaque pass-through per
the adapter contract, so `sampling_params` is the generation dict itself.
`now` is `int(time.time())`.  The result carries the emitted logging
events and the global `llm` after the call; a `VLLMError` raised by
`validate_environment` is caught and re-raised as
`VLLMError(status_code=0, message=str(e))`. -/
def completion (importVLLM : Except String Unit)
    (mkLLM : String → Dict → Except String Engine)
    (generate : Engine → String → Dict → List RequestOutput)
    (promptFor : String → List (String × String) → String)
    (st : Option Engine) (model : String)
    (messages : List (String × String)) (model_response : ModelResponse)
    (optional_params : Dict) (now : Nat) :
    Except AdapterError ((CompletionReturn × List LogEvent) × Option Engine) :=
  match validate_environment importVLLM mkLLM st model (some optional_params) with
  | Except.error e =>
    Except.error (AdapterError.vllm ⟨0, VLLMError.str e⟩)
  | Except.ok (llmRet, genOpts) =>
    match llmRet with
    | none =>
      Except.error (AdapterError.vllm
        ⟨0, "Need to pass in a model name to initialize vllm"⟩)
    | some eng =>
      if streamRequested genOpts then
        Except.ok ((CompletionReturn.stream
          (generate eng (promptFor model messages) genOpts),
          [LogEvent.pre_call (promptFor model messages)]), llmRet)
      else
        match (generate eng (promptFor model messages) genOpts).head? with
        | none => Except.error (AdapterError.uncaught "IndexError")
        | some o0 =>
          match populateResponse model_response model now o0 with
          | Except.error e => Except.error e
          | Except.ok mr =>
            Except.ok ((CompletionReturn.response mr,
              [LogEvent.pre_call (promptFor model messages),
               LogEvent.post_call (promptFor model messages)]), llmRet)

/-- The `for output in outputs` accumulation loop of `batch_completions`:
build one response per output in order, aborting at the first exception. -/
def collectResponses (model : String) (now : Nat) :
    List RequestOutput → Except AdapterError (List ModelResponse)
  | [] => Except.ok []
  | output :: rest =>
    match populateResponse ModelResponse.new model now output with
    | Except.error e => Except.error e
    | Except.ok mr =>
      match collectResponses model now rest with
      | Except.error e => Except.error e
      | Except.ok mrs => Except.ok (mr :: mrs)

/-- Embedding of `batch_completions(...)`.

`generateBatch` is the engine's `generate(prompts, sampling_params)` on a
list of prompts; `promptFor` abstracts the per-message prompt building
(lines 166–183), applied to each message list in input order.  The
logging-event component of the result is the (empty) list of logging
calls made on this path. -/
def batch_completions (importVLLM : Except String Unit)
    (mkLLM : String → Dict → Except String Engine)
    (generateBatch : Engine → List String → Dict → List RequestOutput)
    (promptFor : String → List (String × String) → String)
    (st : Option Engine) (model : String)
    (messages : List (List (String × String)))
    (optional_params : Option Dict) (now : Nat) :
    Except AdapterError ((List ModelResponse × List LogEvent) × Option Engine) :=
  match validate_environment importVLLM mkLLM st model optional_params with
  | Except.error e =>
    Except.error (AdapterError.vllm ⟨0, VLLMError.str e⟩)
  | Except.ok (llmRet, genOpts) =>
    match llmRet with
    | none =>
      Except.error (AdapterError.vllm
        ⟨0, "Need to pass in a model name to initialize vllm"⟩)
    | some eng =>
      match collectResponses model now
          (generateBatch eng (messages.map (promptFor model)) genOpts) with
      | Except.error e => Except.error e
      | Except.ok final_outputs => Except.ok ((final_outputs, []), llmRet)

/-! ### Dictionary lemmas -/

theorem Dict.lookup_append (a b : Dict) (k : String) :
    Dict.lookup (a ++ b) k =
      ((Dict.lookup a k).orElse fun _ => Dict.lookup b k) := by
  induction a with
  | nil => simp [Dict.lookup, Option.orElse]
  | cons kv rest ih =>
    obtain ⟨k', v'⟩ := kv
    by_cases h : k' = k <;> simp [Dict.lookup, h, ih, Option.orElse]

theorem Dict.lookup_filter (p : String → Bool) (d : Dict) (k : String) :
    Dict.lookup (d.filter fun kv => p kv.1) k =
      if p k then Dict.lookup d k else none := by
  induction d with
  | nil => simp [Dict.lookup]
  | cons kv rest ih =>
    obtain ⟨k', v'⟩ := kv
    by_cases hp : p k'
    · by_cases hk : k' = k
      · subst hk
        simp [Dict.lookup, hp, List.filter_cons, ih]
      · simp [Dict.lookup, hp, hk, List.filter_cons, ih]
    · by_cases hk : k' = k
      · subst hk
        simp [Dict.lookup, hp, List.filter_cons, ih, Bool.not_eq_true] at *
      · simp [Dict.lookup, hp, hk, List.filter_cons, ih]

theorem Dict.lookup_map_override (a b : Dict) (k : String) :
    Dict.lookup (a.map fun kv => (kv.1, (Dict.lookup b kv.1).getD kv.2)) k =
      (Dict.lookup a k).map fun v => (Dict.lookup b k).getD v := by
  induction a with
  | nil => simp [Dict.lookup]
  | cons kv rest ih =>
    obtain ⟨k', v'⟩ := kv
    by_cases h : k' = k
    · subst h
      simp [Dict.lookup, ih]
    · simp [Dict.lookup, h, ih]

/-! ### C1: the options map is partitioned by the construction whitelist -/

/-- C1: for every options map passed to `validate_environment`, the map is
partitioned against the `default_params` whitelist: a whitelist key maps in
the construction options to the caller's value when present and the default
otherwise, and never appears in the generation remainder; a non-whitelist
key appears only in the generation remainder, with the caller's value; and
`validate_environment` returns exactly this partition (engine built from
the construction options, generation remainder returned to the caller). -/
theorem C1_options_partition (op : Dict) (k : String) (m : String) :
    Dict.lookup (construction_params op) k =
      (if default_params.containsKey k
       then (Dict.lookup op k).orElse fun _ => Dict.lookup default_params k
       else none) ∧
    Dict.lookup (generation_params op) k =
      (if default_params.containsKey k then none else Dict.lookup op k) ∧
    validate_environment (Except.ok ()) LLM_ok none m (some op) =
      Except.ok (some ⟨m, construction_params op⟩, generation_params op) := by
  refine ⟨?_, ?_, rfl⟩
  · unfold construction_params Dict.merge
    rw [Dict.lookup_append, Dict.lookup_map_override,
      Dict.lookup_filter (fun s => !default_params.containsKey s),
      Dict.lookup_filter (fun s => default_params.containsKey s)]
    cases hd : Dict.lookup default_params k with
    | none =>
      have hc : default_params.containsKey k = false := by
        simp [Dict.containsKey, hd]
      simp [hc, Option.orElse]
    | some d =>
      have hc : default_params.containsKey k = true := by
        simp [Dict.containsKey, hd]
      cases ho : Dict.lookup op k <;> simp [hc, hd, ho, Option.orElse]
  · unfold generation_params
    rw [Dict.lookup_filter (fun s => !default_params.containsKey s)]
    by_cases hc : default_params.containsKey k <;> simp [hc]

/-! ### C2: the engine handle is a first-caller-wins singleton -/

/-- C2: when an engine handle already exists, `validate_environment`
returns it unchanged (and leaves it as the global state) for every model
identifier and options map, and the engine component of the result does
not depend on the model identifier or on the engine constructor at all:
two sequential calls with different models both get the first engine. -/
theorem C2_singleton_first_caller_wins
    (mk mk2 : String → Dict → Except String Engine) (e : Engine)
    (m m2 : String) (op op2 : Option Dict) :
    validate_environment (Except.ok ()) mk (some e) m op =
      Except.ok (some e, generation_params (op.getD [])) ∧
    (validate_environment (Except.ok ()) mk (some e) m op).map Prod.fst =
      (validate_environment (Except.ok ()) mk2 (some e) m2 op2).map Prod.fst := by
  exact ⟨rfl, rfl⟩

/-! ### C10: a `None` options map is treated as an empty map -/

/-- C10: `validate_environment` treats `None` for the options map exactly
as the empty map: every whitelist default is applied for construction and
the generation remainder is empty.  (The source computes the partition
with dict comprehensions into fresh dicts and only rebinds the local
name, so the caller's dict is never mutated; the embedding is pure.) -/
theorem C10_none_options (importVLLM : Except String Unit)
    (mk : String → Dict → Except String Engine) (st : Option Engine)
    (m : String) :
    validate_environment importVLLM mk st m none =
      validate_environment importVLLM mk st m (some []) ∧
    construction_params [] = default_params ∧
    generation_params [] = [] := by
  refine ⟨?_, rfl, rfl⟩
  cases importVLLM with
  | error msg => rfl
  | ok u =>
    cases st with
    | some e => rfl
    | none => rfl

/-! ### Lemmas about the response-population block and the batch loop -/

theorem populateResponse_eq (mr : ModelResponse) (m : String) (now : Nat)
    (output : RequestOutput) (c0 : CompletionOutput) (mr1 : ModelResponse)
    (hc : output.outputs.head? = some c0)
    (hset : mr.setContent0 c0.text = some mr1) :
    populateResponse mr m now output =
      Except.ok { mr1 with
        created := now
        model := m
        usage := some ⟨output.prompt_token_ids.length, c0.token_ids.length,
          output.prompt_token_ids.length + c0.token_ids.length⟩ } := by
  simp only [populateResponse, hc, hset]

theorem populateResponse_ok_inv (mr : ModelResponse) (m : String) (now : Nat)
    (output : RequestOutput) (r : ModelResponse)
    (h : populateResponse mr m now output = Except.ok r) :
    ∃ c0 mr1, output.outputs.head? = some c0 ∧
      mr.setContent0 c0.text = some mr1 ∧
      r = { mr1 with
        created := now
        model := m
        usage := some ⟨output.prompt_token_ids.length, c0.token_ids.length,
          output.prompt_token_ids.length + c0.token_ids.length⟩ } := by
  unfold populateResponse at h
  split at h
  · exact absurd h (by simp)
  · rename_i c0 hc
    split at h
    · exact absurd h (by simp)
    · rename_i mr1 hset
      injection h with h'
      exact ⟨c0, mr1, hc, hset, h'.symm⟩

theorem populateResponse_error_uncaught (mr : ModelResponse) (m : String)
    (now : Nat) (output : RequestOutput) (e : AdapterError)
    (h : populateResponse mr m now output = Except.error e) :
    ∃ s, e = AdapterError.uncaught s := by
  unfold populateResponse at h
  split at h
  · injection h with h'
    exact ⟨"IndexError", h'.symm⟩
  · split at h
    · injection h with h'
      exact ⟨"IndexError", h'.symm⟩
    · exact absurd h (by simp)

theorem collectResponses_ok (m : String) (now : Nat) (outs : List RequestOutput) :
    ∀ (rs : List ModelResponse), collectResponses m now outs = Except.ok rs →
      rs.length = outs.length ∧
      ∀ (i : Nat) (hi : i < rs.length) (ho : i < outs.length),
        populateResponse ModelResponse.new m now (outs.get ⟨i, ho⟩) =
          Except.ok (rs.get ⟨i, hi⟩) := by
  induction outs with
  | nil =>
    intro rs h
    unfold collectResponses at h
    injection h with h'
    subst h'
    exact ⟨rfl, fun i hi ho => absurd ho (by simp)⟩
  | cons output rest ih =>
    intro rs h
    unfold collectResponses at h
    split at h
    · exact absurd h (by simp)
    · rename_i mr hmr
      split at h
      · exact absurd h (by simp)
      · rename_i mrs hmrs
        injection h with h'
        subst h'
        obtain ⟨hlen, hidx⟩ := ih mrs hmrs
        refine ⟨by simp [hlen], ?_⟩
        intro i hi ho
        cases i with
        | zero => exact hmr
        | succ j =>
          have hi' : j < mrs.length := by simp at hi; omega
          have ho' : j < rest.length := by simp at ho; omega
          exact hidx j hi' ho'

theorem streamRequested_iff (d : Dict) :
    streamRequested d = true ↔ Dict.lookup d "stream" = some (Val.vBool true) := by
  unfold streamRequested Dict.containsKey
  cases h : Dict.lookup d "stream" with
  | none => simp [h]
  | some v =>
    cases v with
    | vNone => simp [h]
    | vBool b => cases b <;> simp [h]
    | vInt n => simp [h]
    | vStr s => simp [h]
    | vFloat q => simp [h]

/-! ### C6: streaming returns the raw engine outputs -/

/-- C6: when the generation options carry `stream` with value `True` and
the engine resolves, `completion` returns the raw engine output sequence
as the single-pass iterator `iter(outputs)`: no response object is
populated (only the pre-call log event is emitted, no post-call). -/
theorem C6_streaming_returns_raw_iterator
    (importVLLM : Except String Unit)
    (mk : String → Dict → Except String Engine)
    (gen : Engine → String → Dict → List RequestOutput)
    (pf : String → List (String × String) → String) (st : Option Engine)
    (m : String) (msgs : List (String × String)) (mr0 : ModelResponse)
    (op : Dict) (now : Nat) (eng : Engine) (gopts : Dict)
    (hv : validate_environment importVLLM mk st m (some op) =
      Except.ok (some eng, gopts))
    (hs : Dict.lookup gopts "stream" = some (Val.vBool true)) :
    completion importVLLM mk gen pf st m msgs mr0 op now =
      Except.ok ((CompletionReturn.stream (gen eng (pf m msgs) gopts),
        [LogEvent.pre_call (pf m msgs)]), some eng) := by
  have hs' : streamRequested gopts = true := (streamRequested_iff gopts).mpr hs
  simp [completion, hv, hs']

/-- Witness for C6 at a concrete streaming request. -/
theorem C6_streaming_returns_raw_iterator_witness :
    completion (Except.ok ()) LLM_ok (fun _ _ _ => [⟨[1, 2, 3], [⟨"hello", [4, 5]⟩]⟩])
      (fun _ _ => "PROMPT") none "m" [("user", "hi")] ModelResponse.new
      [("stream", Val.vBool true)] 7 =
    Except.ok ((CompletionReturn.stream [⟨[1, 2, 3], [⟨"hello", [4, 5]⟩]⟩],
      [LogEvent.pre_call "PROMPT"]),
      some ⟨"m", construction_params [("stream", Val.vBool true)]⟩) :=
  C6_streaming_returns_raw_iterator (Except.ok ()) LLM_ok
    (fun _ _ _ => [⟨[1, 2, 3], [⟨"hello", [4, 5]⟩]⟩]) (fun _ _ => "PROMPT")
    none "m" [("user", "hi")] ModelResponse.new [("stream", Val.vBool true)] 7
    ⟨"m", construction_params [("stream", Val.vBool true)]⟩
    [("stream", Val.vBool true)] (by rfl) (by rfl)

/-! ### C7: the defensive no-engine branch of `completion` is unreachable -/

/-- C7: whenever `validate_environment` returns successfully, the engine
handle it hands back is non-`None`, so the defensive
`raise VLLMError(status_code=0, message="Need to pass in a model name to
initialize vllm")` branch of `completion` is unreachable and the
`llm.generate` call is always taken. -/
theorem C7_defensive_branch_unreachable
    (importVLLM : Except String Unit)
    (mk : String → Dict → Except String Engine)
    (gen : Engine → String → Dict → List RequestOutput)
    (pf : String → List (String × String) → String) (st : Option Engine)
    (m : String) (msgs : List (String × String)) (mr0 : ModelResponse)
    (op : Dict) (now : Nat) (llmRet : Option Engine) (gopts : Dict)
    (hv : validate_environment importVLLM mk st m (some op) =
      Except.ok (llmRet, gopts)) :
    (∃ e, llmRet = some e) ∧
    completion importVLLM mk gen pf st m msgs mr0 op now ≠
      Except.error (AdapterError.vllm
        ⟨0, "Need to pass in a model name to initialize vllm"⟩) := by
  have hsome : ∃ e, llmRet = some e := by
    unfold validate_environment at hv
    split at hv
    · exact Except.noConfusion hv
    · split at hv
      · rename_i e
        injection hv with h1
        injection h1 with h2 h3
        exact ⟨e, h2.symm⟩
      · split at hv
        · rename_i e _
          injection hv with h1
          injection h1 with h2 h3
          exact ⟨e, h2.symm⟩
        · exact Except.noConfusion hv
  obtain ⟨e, he⟩ := hsome
  subst he
  refine ⟨⟨e, rfl⟩, ?_⟩
  intro hcon
  simp only [completion, hv] at hcon
  split at hcon
  · simp at hcon
  · split at hcon
    · simp at hcon
    · split at hcon
      · rename_i e1 hpop
        obtain ⟨s, hs2⟩ := populateResponse_error_uncaught _ _ _ _ _ hpop
        subst hs2
        simp at hcon
      · simp at hcon

/-- Witness for C7 at a concrete successful engine resolution. -/
theorem C7_defensive_branch_unreachable_witness :
    (∃ e, (some (Engine.mk "m" (construction_params [])) : Option Engine) =
      some e) ∧
    completion (Except.ok ()) LLM_ok
        (fun _ _ _ => [⟨[1, 2, 3], [⟨"hello", [4, 5]⟩]⟩]) (fun _ _ => "PROMPT")
        none "m" [("user", "hi")] ModelResponse.new [] 7 ≠
      Except.error (AdapterError.vllm
        ⟨0, "Need to pass in a model name to initialize vllm"⟩) :=
  C7_defensive_branch_unreachable (Except.ok ()) LLM_ok
    (fun _ _ _ => [⟨[1, 2, 3], [⟨"hello", [4, 5]⟩]⟩]) (fun _ _ => "PROMPT")
    none "m" [("user", "hi")] ModelResponse.new [] 7
    (some ⟨"m", construction_params []⟩) [] (by rfl)

/-! ### C9: streaming is selected only by the exact boolean `True` -/

/-- C9: the streaming branch of `completion` is taken exactly when the
generation options bind `"stream"` to the Python object `True` (`is True`
identity); any other value — `1`, a string, or absence of the key — takes
the non-streaming path, which populates and returns a response object. -/
theorem C9_stream_only_on_identical_true
    (importVLLM : Except String Unit)
    (mk : String → Dict → Except String Engine)
    (gen : Engine → String → Dict → List RequestOutput)
    (pf : String → List (String × String) → String) (st : Option Engine)
    (m : String) (msgs : List (String × String)) (mr0 : ModelResponse)
    (op : Dict) (now : Nat) (eng : Engine) (gopts : Dict)
    (hv : validate_environment importVLLM mk st m (some op) =
      Except.ok (some eng, gopts)) :
    (Dict.lookup gopts "stream" = some (Val.vBool true) →
      completion importVLLM mk gen pf st m msgs mr0 op now =
        Except.ok ((CompletionReturn.stream (gen eng (pf m msgs) gopts),
          [LogEvent.pre_call (pf m msgs)]), some eng)) ∧
    (Dict.lookup gopts "stream" ≠ some (Val.vBool true) →
      (∀ outs logs st2, completion importVLLM mk gen pf st m msgs mr0 op now ≠
        Except.ok ((CompletionReturn.stream outs, logs), st2)) ∧
      (∀ o0 c0 mr1, (gen eng (pf m msgs) gopts).head? = some o0 →
        o0.outputs.head? = some c0 → mr0.setContent0 c0.text = some mr1 →
        completion importVLLM mk gen pf st m msgs mr0 op now =
          Except.ok ((CompletionReturn.response { mr1 with
            created := now
            model := m
            usage := some ⟨o0.prompt_token_ids.length, c0.token_ids.length,
              o0.prompt_token_ids.length + c0.token_ids.length⟩ },
            [LogEvent.pre_call (pf m msgs), LogEvent.post_call (pf m msgs)]),
            some eng))) := by
  constructor
  · intro hs
    have hs' : streamRequested gopts = true := (streamRequested_iff gopts).mpr hs
    simp [completion, hv, hs']
  · intro hns
    have hs' : streamRequested gopts = false := by
      cases hsr : streamRequested gopts
      · rfl
      · exact absurd ((streamRequested_iff gopts).mp hsr) hns
    constructor
    · intro outs logs st2 hcon
      simp only [completion, hv] at hcon
      rw [hs'] at hcon
      simp only [Bool.false_eq_true, if_false] at hcon
      split at hcon
      · simp at hcon
      · split at hcon
        · simp at hcon
        · simp at hcon
    · intro o0 c0 mr1 h0 hc hset
      have hp := populateResponse_eq mr0 m now o0 c0 mr1 hc hset
      simp [completion, hv, hs', h0, hp]

/-- Witness for C9 with `"stream"` bound to the integer `1`: the
non-streaming path is taken and a populated response is returned. -/
theorem C9_stream_only_on_identical_true_witness :
    ((Dict.lookup [("stream", Val.vInt 1)] "stream" = some (Val.vBool true) →
      completion (Except.ok ()) LLM_ok
          (fun _ _ _ => [⟨[1, 2, 3], [⟨"hello", [4, 5]⟩]⟩])
          (fun _ _ => "PROMPT") none "m" [("user", "hi")] ModelResponse.new
          [("stream", Val.vInt 1)] 7 =
        Except.ok ((CompletionReturn.stream
          [⟨[1, 2, 3], [⟨"hello", [4, 5]⟩]⟩], [LogEvent.pre_call "PROMPT"]),
          some ⟨"m", construction_params [("stream", Val.vInt 1)]⟩)) ∧
    (Dict.lookup [("stream", Val.vInt 1)] "stream" ≠ some (Val.vBool true) →
      (∀ outs logs st2, completion (Except.ok ()) LLM_ok
          (fun _ _ _ => [⟨[1, 2, 3], [⟨"hello", [4, 5]⟩]⟩])
          (fun _ _ => "PROMPT") none "m" [("user", "hi")] ModelResponse.new
          [("stream", Val.vInt 1)] 7 ≠
        Except.ok ((CompletionReturn.stream outs, logs), st2)) ∧
      (∀ o0 c0 mr1,
        ((fun (_ : Engine) (_ : String) (_ : Dict) =>
            [(⟨[1, 2, 3], [⟨"hello", [4, 5]⟩]⟩ : RequestOutput)])
          ⟨"m", construction_params [("stream", Val.vInt 1)]⟩ "PROMPT"
          [("stream", Val.vInt 1)]).head? = some o0 →
        o0.outputs.head? = some c0 →
        ModelResponse.new.setContent0 c0.text = some mr1 →
        completion (Except.ok ()) LLM_ok
            (fun _ _ _ => [⟨[1, 2, 3], [⟨"hello", [4, 5]⟩]⟩])
            (fun _ _ => "PROMPT") none "m" [("user", "hi")] ModelResponse.new
            [("stream", Val.vInt 1)] 7 =
          Except.ok ((CompletionReturn.response { mr1 with
            created := 7
            model := "m"
            usage := some ⟨o0.prompt_token_ids.length, c0.token_ids.length,
              o0.prompt_token_ids.length + c0.token_ids.length⟩ },
            [LogEvent.pre_call "PROMPT", LogEvent.post_call "PROMPT"]),
            some ⟨"m", construction_params [("stream", Val.vInt 1)]⟩)))) :=
  C9_stream_only_on_identical_true (Except.ok ()) LLM_ok
    (fun _ _ _ => [⟨[1, 2, 3], [⟨"hello", [4, 5]⟩]⟩]) (fun _ _ => "PROMPT")
    none "m" [("user", "hi")] ModelResponse.new [("stream", Val.vInt 1)] 7
    ⟨"m", construction_params [("stream", Val.vInt 1)]⟩
    [("stream", Val.vInt 1)] (by rfl)

/-- A concrete engine raw output for exercising the adapter: prompt of
three token ids, one candidate with two token ids. -/
def sampleOutput : RequestOutput :=
  ⟨[1, 2, 3], [⟨"hello", [4, 5]⟩]⟩

/-- The response object the adapter builds from `sampleOutput` for model
`"m"` at time `7`. -/
def sampleResponse : ModelResponse :=
  ⟨[⟨⟨some "hello"⟩⟩], 7, "m", some ⟨3, 2, 5⟩⟩

/-! ### C3: token-usage accounting -/

/-- C3: every populated non-streaming single-completion response carries
`usage` with `prompt_tokens` the length of the engine output's prompt
token-id sequence, `completion_tokens` the length of the first candidate's
token-id sequence, and `total_tokens` their sum; each response built by
the batch loop gets the same accounting from its own engine output. -/
theorem C3_usage_token_accounting
    (importVLLM : Except String Unit)
    (mk : String → Dict → Except String Engine)
    (gen : Engine → String → Dict → List RequestOutput)
    (pf : String → List (String × String) → String) (st : Option Engine)
    (m : String) (msgs : List (String × String)) (mr0 : ModelResponse)
    (op : Dict) (now : Nat) (eng : Engine) (gopts : Dict)
    (o0 : RequestOutput) (c0 : CompletionOutput) (mr1 : ModelResponse)
    (outs : List RequestOutput) (rs : List ModelResponse) (i : Nat)
    (hv : validate_environment importVLLM mk st m (some op) =
      Except.ok (some eng, gopts))
    (hns : Dict.lookup gopts "stream" ≠ some (Val.vBool true))
    (h0 : (gen eng (pf m msgs) gopts).head? = some o0)
    (hc : o0.outputs.head? = some c0)
    (hset : mr0.setContent0 c0.text = some mr1)
    (hcoll : collectResponses m now outs = Except.ok rs)
    (hi : i < rs.length) (ho : i < outs.length) :
    (∃ mrRet, completion importVLLM mk gen pf st m msgs mr0 op now =
        Except.ok ((CompletionReturn.response mrRet,
          [LogEvent.pre_call (pf m msgs), LogEvent.post_call (pf m msgs)]),
          some eng) ∧
      mrRet.usage = some ⟨o0.prompt_token_ids.length, c0.token_ids.length,
        o0.prompt_token_ids.length + c0.token_ids.length⟩) ∧
    (∃ cI, (outs.get ⟨i, ho⟩).outputs.head? = some cI ∧
      (rs.get ⟨i, hi⟩).usage =
        some ⟨(outs.get ⟨i, ho⟩).prompt_token_ids.length,
          cI.token_ids.length,
          (outs.get ⟨i, ho⟩).prompt_token_ids.length +
            cI.token_ids.length⟩) := by
  constructor
  · have hs' : streamRequested gopts = false := by
      cases hsr : streamRequested gopts
      · rfl
      · exact absurd ((streamRequested_iff gopts).mp hsr) hns
    have hp := populateResponse_eq mr0 m now o0 c0 mr1 hc hset
    refine ⟨{ mr1 with
      created := now
      model := m
      usage := some ⟨o0.prompt_token_ids.length, c0.token_ids.length,
        o0.prompt_token_ids.length + c0.token_ids.length⟩ }, ?_, rfl⟩
    simp [completion, hv, hs', h0, hp]
  · obtain ⟨hlen, hidx⟩ := collectResponses_ok m now outs rs hcoll
    obtain ⟨cI, mrI, hcI, hsetI, hr⟩ :=
      populateResponse_ok_inv _ _ _ _ _ (hidx i hi ho)
    exact ⟨cI, hcI, by rw [hr]⟩

/-- Witness for C3 on a concrete single and batch run. -/
theorem C3_usage_token_accounting_witness :
    (∃ mrRet, completion (Except.ok ()) LLM_ok (fun _ _ _ => [sampleOutput])
        (fun _ _ => "PROMPT") none "m" [("user", "hi")] ModelResponse.new
        [] 7 =
        Except.ok ((CompletionReturn.response mrRet,
          [LogEvent.pre_call "PROMPT", LogEvent.post_call "PROMPT"]),
          some ⟨"m", construction_params []⟩) ∧
      mrRet.usage = some ⟨3, 2, 3 + 2⟩) ∧
    (∃ cI, (([sampleOutput] : List RequestOutput).get
        ⟨0, by decide⟩).outputs.head? = some cI ∧
      (([sampleResponse] : List ModelResponse).get ⟨0, by decide⟩).usage =
        some ⟨3, cI.token_ids.length, 3 + cI.token_ids.length⟩) :=
  C3_usage_token_accounting (Except.ok ()) LLM_ok (fun _ _ _ => [sampleOutput])
    (fun _ _ => "PROMPT") none "m" [("user", "hi")] ModelResponse.new [] 7
    ⟨"m", construction_params []⟩ [] sampleOutput ⟨"hello", [4, 5]⟩
    ⟨[⟨⟨some "hello"⟩⟩], 0, "", none⟩ [sampleOutput] [sampleResponse] 0
    (by rfl) (by decide) (by rfl) (by rfl) (by rfl) (by rfl)
    (by decide) (by decide)

/-! ### C5: the batch adapter returns one response per input, in order -/

/-- C5: under the engine's one-output-per-prompt contract, the batch
adapter returns exactly one response per input message list, and the i-th
response is computed (by the shared response-population block) from the
i-th engine output alone. -/
theorem C5_batch_one_response_per_input
    (importVLLM : Except String Unit)
    (mk : String → Dict → Except String Engine)
    (genB : Engine → List String → Dict → List RequestOutput)
    (pf : String → List (String × String) → String) (st : Option Engine)
    (m : String) (msgsB : List (List (String × String)))
    (opB : Option Dict) (now : Nat) (eng : Engine) (gopts : Dict)
    (rs : List ModelResponse) (i : Nat)
    (hv : validate_environment importVLLM mk st m opB =
      Except.ok (some eng, gopts))
    (hcoll : collectResponses m now
      (genB eng (msgsB.map (pf m)) gopts) = Except.ok rs)
    (hlen : (genB eng (msgsB.map (pf m)) gopts).length = msgsB.length)
    (hi : i < rs.length)
    (ho : i < (genB eng (msgsB.map (pf m)) gopts).length) :
    batch_completions importVLLM mk genB pf st m msgsB opB now =
      Except.ok ((rs, []), some eng) ∧
    rs.length = msgsB.length ∧
    populateResponse ModelResponse.new m now
      ((genB eng (msgsB.map (pf m)) gopts).get ⟨i, ho⟩) =
      Except.ok (rs.get ⟨i, hi⟩) := by
  obtain ⟨hlen2, hidx⟩ := collectResponses_ok m now _ rs hcoll
  refine ⟨?_, hlen2.trans hlen, hidx i hi ho⟩
  simp [batch_completions, hv, hcoll]

/-- Witness for C5 on a two-element batch. -/
theorem C5_batch_one_response_per_input_witness :
    batch_completions (Except.ok ()) LLM_ok
        (fun _ ps _ => ps.map fun _ => sampleOutput) (fun _ _ => "PROMPT")
        none "m" [[("user", "a")], [("user", "b")]] (some []) 7 =
      Except.ok (([sampleResponse, sampleResponse], []),
        some ⟨"m", construction_params []⟩) ∧
    ([sampleResponse, sampleResponse] : List ModelResponse).length =
      ([[("user", "a")], [("user", "b")]] :
        List (List (String × String))).length ∧
    populateResponse ModelResponse.new "m" 7 sampleOutput =
      Except.ok sampleResponse :=
  C5_batch_one_response_per_input (Except.ok ()) LLM_ok
    (fun _ ps _ => ps.map fun _ => sampleOutput) (fun _ _ => "PROMPT")
    none "m" [[("user", "a")], [("user", "b")]] (some []) 7
    ⟨"m", construction_params []⟩ [] [sampleResponse, sampleResponse] 1
    (by rfl) (by rfl) (by rfl) (by decide) (by decide)

/-! ### C8: no logging events on the batch path -/

/-- C8: `batch_completions` never invokes a logging callback — every
successful batch call emits the empty list of log events — while a
successful non-streaming `completion` emits both the pre-call and the
post-call event. -/
theorem C8_batch_emits_no_log_events
    (importVLLM importVLLM2 : Except String Unit)
    (mk mk2 : String → Dict → Except String Engine)
    (genB : Engine → List String → Dict → List RequestOutput)
    (gen : Engine → String → Dict → List RequestOutput)
    (pf pf2 : String → List (String × String) → String)
    (st st4 : Option Engine) (m m2 : String)
    (msgsB : List (List (String × String))) (msgs : List (String × String))
    (mr0 mrRet : ModelResponse) (opB : Option Dict) (op : Dict)
    (now now2 : Nat) (rs : List ModelResponse) (logsB logsC : List LogEvent)
    (st2 st3 : Option Engine)
    (hb : batch_completions importVLLM mk genB pf st m msgsB opB now =
      Except.ok ((rs, logsB), st2))
    (hc : completion importVLLM2 mk2 gen pf2 st4 m2 msgs mr0 op now2 =
      Except.ok ((CompletionReturn.response mrRet, logsC), st3)) :
    logsB = [] ∧
    logsC = [LogEvent.pre_call (pf2 m2 msgs),
      LogEvent.post_call (pf2 m2 msgs)] := by
  constructor
  · simp only [batch_completions] at hb
    split at hb
    · simp at hb
    · split at hb
      · simp at hb
      · split at hb
        · simp at hb
        · injection hb with h1
          injection h1 with h2 h3
          injection h2 with h4 h5
          exact h5.symm
  · simp only [completion] at hc
    split at hc
    · simp at hc
    · split at hc
      · simp at hc
      · split at hc
        · simp at hc
        · split at hc
          · simp at hc
          · split at hc
            · simp at hc
            · injection hc with h1
              injection h1 with h2 h3
              injection h2 with h4 h5
              exact h5.symm

/-- Witness for C8 on a concrete batch call and single call. -/
theorem C8_batch_emits_no_log_events_witness :
    ([] : List LogEvent) = [] ∧
    [LogEvent.pre_call "PROMPT", LogEvent.post_call "PROMPT"] =
      [LogEvent.pre_call "PROMPT", LogEvent.post_call "PROMPT"] :=
  C8_batch_emits_no_log_events (Except.ok ()) (Except.ok ()) LLM_ok LLM_ok
    (fun _ ps _ => ps.map fun _ => sampleOutput) (fun _ _ _ => [sampleOutput])
    (fun _ _ => "PROMPT") (fun _ _ => "PROMPT") none none "m" "m"
    [[("user", "a")], [("user", "b")]] [("user", "hi")] ModelResponse.new
    sampleResponse (some []) [] 7 7 [sampleResponse, sampleResponse] []
    [LogEvent.pre_call "PROMPT", LogEvent.post_call "PROMPT"]
    (some ⟨"m", construction_params []⟩) (some ⟨"m", construction_params []⟩)
    (by rfl) (by rfl)

/-! ### C4: uniform wrapping of engine-resolution failures -/

/-- C4: every exception raised while importing the engine library or
constructing the engine makes `validate_environment` raise the adapter's
`VLLMError` with `status_code = 0` and the original exception's message,
and the catch-and-rewrap layers in `completion` and `batch_completions`
re-raise it with the same status code and message. -/
theorem C4_uniform_error_wrapping
    (importVLLM : Except String Unit)
    (mk : String → Dict → Except String Engine)
    (gen : Engine → String → Dict → List RequestOutput)
    (genB : Engine → List String → Dict → List RequestOutput)
    (pf : String → List (String × String) → String) (st : Option Engine)
    (m : String) (msgs : List (String × String))
    (msgsB : List (List (String × String))) (mr0 : ModelResponse)
    (op : Dict) (now : Nat) (err : VLLMError)
    (hv : validate_environment importVLLM mk st m (some op) =
      Except.error err) :
    err.status_code = 0 ∧
    (importVLLM = Except.error err.message ∨
      (importVLLM = Except.ok () ∧ st = none ∧
        mk m (construction_params op) = Except.error err.message)) ∧
    completion importVLLM mk gen pf st m msgs mr0 op now =
      Except.error (AdapterError.vllm ⟨0, err.message⟩) ∧
    batch_completions importVLLM mk genB pf st m msgsB (some op) now =
      Except.error (AdapterError.vllm ⟨0, err.message⟩) := by
  unfold validate_environment at hv
  split at hv
  · injection hv with h1
    subst h1
    exact ⟨rfl, Or.inl rfl, rfl, rfl⟩
  · split at hv
    · exact Except.noConfusion hv
    · split at hv
      · exact Except.noConfusion hv
      · rename_i msg hmk
        injection hv with h1
        subst h1
        have hmk2 : mk m (construction_params op) = Except.error msg := hmk
        refine ⟨rfl, Or.inr ⟨rfl, rfl, hmk2⟩, ?_, ?_⟩
        · simp [completion, validate_environment, hmk2, VLLMError.str]
        · simp [batch_completions, validate_environment, hmk2, VLLMError.str]

/-- Witness for C4 at a concrete import failure. -/
theorem C4_uniform_error_wrapping_witness :
    (VLLMError.mk 0 "boom").status_code = 0 ∧
    ((Except.error "boom" : Except String Unit) =
        Except.error (VLLMError.mk 0 "boom").message ∨
      ((Except.error "boom" : Except String Unit) = Except.ok () ∧
        (none : Option Engine) = none ∧
        LLM_ok "m" (construction_params []) =
          Except.error (VLLMError.mk 0 "boom").message)) ∧
    completion (Except.error "boom") LLM_ok (fun _ _ _ => [sampleOutput])
        (fun _ _ => "PROMPT") none "m" [("user", "hi")] ModelResponse.new
        [] 7 =
      Except.error (AdapterError.vllm ⟨0, "boom"⟩) ∧
    batch_completions (Except.error "boom") LLM_ok
        (fun _ ps _ => ps.map fun _ => sampleOutput) (fun _ _ => "PROMPT")
        none "m" [[("user", "a")]] (some []) 7 =
      Except.error (AdapterError.vllm ⟨0, "boom"⟩) :=
  C4_uniform_error_wrapping (Except.error "boom") LLM_ok
    (fun _ _ _ => [sampleOutput]) (fun _ ps _ => ps.map fun _ => sampleOutput)
    (fun _ _ => "PROMPT") none "m" [("user", "hi")] [[("user", "a")]]
    ModelResponse.new [] 7 ⟨0, "boom"⟩ (by rfl)

end Vllm
